import Mathlib

/-!
Verification of the `@minecraft/server-ui` type-declaration surface
(src/index.d.ts) against its design specification.

The repository declares three fluent form builders (`ActionFormData`,
`MessageFormData`, `ModalFormData`), their response classes, and two reason
enums.  The declarations fix the shape (method names, parameter types, field
optionality, constructor visibility); the run-time behaviour of the builders
and of the host that presents the forms is described only by the spec, so the
behavioural definitions below are modelled from the spec and say so in their
doc comments.
-/

/-- Modelled from the spec: `RawMessage` is imported from the external
`@minecraft/server` module (src/index.d.ts line 51) and is not declared in
this repository.  The spec describes it as "a structured localizable message
(a tagged template of translation-key + substitution arguments)". -/
structure RawMessage where
  translate : String
  substitutions : List String
deriving DecidableEq, Repr

/-- The TypeScript union `MC.RawMessage | string` used by every text
parameter of the three builders: either a plain string or a structured
localizable message. -/
inductive RawText where
  | plain (text : String)
  | localized (message : RawMessage)
deriving DecidableEq, Repr

/-- `FormCancelationReason` enum, src/index.d.ts lines 53-56. -/
inductive FormCancelationReason where
  | UserBusy
  | UserClosed
deriving DecidableEq, Repr

/-- `FormRejectionReason` enum, src/index.d.ts lines 57-61. -/
inductive FormRejectionReason where
  | MalformedResponse
  | PlayerQuit
  | ServerShutdown
deriving DecidableEq, Repr

/-- Base class `FormResponse`, src/index.d.ts lines 104-115: a required
boolean `canceled` field and an optional `cancelationReason` field. -/
structure FormResponse where
  canceled : Bool
  cancelationReason : Option FormCancelationReason
deriving DecidableEq, Repr

/-- `ActionFormResponse`, src/index.d.ts lines 94-100: adds an optional
`selection` (index of the pushed button). -/
structure ActionFormResponse extends FormResponse where
  selection : Option Nat
deriving DecidableEq, Repr

/-- `MessageFormResponse`, src/index.d.ts lines 151-157: adds an optional
`selection` (index of the pushed button). -/
structure MessageFormResponse extends FormResponse where
  selection : Option Nat
deriving DecidableEq, Repr

/-- The TypeScript union `boolean | number | string` of per-control values in
`ModalFormResponse.formValues` (src/index.d.ts line 214).  Numbers are
modelled as integers; only the branch of the union matters to the claims. -/
inductive ModalValue where
  | ofBool (b : Bool)
  | ofNumber (n : Int)
  | ofString (s : String)
deriving DecidableEq, Repr

/-- `ModalFormResponse`, src/index.d.ts lines 208-215: adds an optional
ordered list `formValues`. -/
structure ModalFormResponse extends FormResponse where
  formValues : Option (List ModalValue)
deriving DecidableEq, Repr

/-- One button of an Action form: label and optional icon path
(src/index.d.ts line 78, `button(text, iconPath?)`). -/
structure ActionButton where
  text : RawText
  iconPath : Option String
deriving DecidableEq, Repr

/-- Accumulated state of an `ActionFormData` builder (src/index.d.ts lines
66-90): a title, a body and an ordered button list. -/
structure ActionFormData where
  titleText : Option RawText
  bodyText : Option RawText
  buttons : List ActionButton
deriving DecidableEq, Repr

/-- `new ActionFormData()`: src/index.d.ts line 70. -/
def ActionFormData.new : ActionFormData :=
  { titleText := none, bodyText := none, buttons := [] }

/-- Modelled from the spec: src/index.d.ts line 89 declares only the
signature `title(titleText): ActionFormData`; the behaviour (sets the title,
last call wins) is spec section 4.1. -/
def ActionFormData.title (f : ActionFormData) (titleText : RawText) : ActionFormData :=
  { f with titleText := some titleText }

/-- Modelled from the spec: src/index.d.ts line 74 declares only the
signature `body(bodyText): ActionFormData`; the behaviour (sets the body,
last call wins) is spec section 4.1. -/
def ActionFormData.body (f : ActionFormData) (bodyText : RawText) : ActionFormData :=
  { f with bodyText := some bodyText }

/-- Modelled from the spec: src/index.d.ts line 78 declares only the
signature `button(text, iconPath?): ActionFormData`; the behaviour (appends
one button, call order is index order) is spec section 4.1. -/
def ActionFormData.button (f : ActionFormData) (text : RawText)
    (iconPath : Option String) : ActionFormData :=
  { f with buttons := f.buttons ++ [{ text := text, iconPath := iconPath }] }

/-- Accumulated state of a `MessageFormData` builder (src/index.d.ts lines
119-147): a title, a body and the two fixed button labels. -/
structure MessageFormData where
  titleText : Option RawText
  bodyText : Option RawText
  button1Text : Option RawText
  button2Text : Option RawText
deriving DecidableEq, Repr

/-- `new MessageFormData()`: src/index.d.ts line 123. -/
def MessageFormData.new : MessageFormData :=
  { titleText := none, bodyText := none, button1Text := none, button2Text := none }

/-- Modelled from the spec: src/index.d.ts line 146 declares only the
signature; behaviour (sets the title, last call wins) is spec section 4.1. -/
def MessageFormData.title (f : MessageFormData) (titleText : RawText) : MessageFormData :=
  { f with titleText := some titleText }

/-- Modelled from the spec: src/index.d.ts line 127 declares only the
signature; behaviour (sets the body, last call wins) is spec section 4.1. -/
def MessageFormData.body (f : MessageFormData) (bodyText : RawText) : MessageFormData :=
  { f with bodyText := some bodyText }

/-- Modelled from the spec: src/index.d.ts line 131 declares only the
signature; behaviour (sets the first button label) is spec section 4.1. -/
def MessageFormData.button1 (f : MessageFormData) (text : RawText) : MessageFormData :=
  { f with button1Text := some text }

/-- Modelled from the spec: src/index.d.ts line 135 declares only the
signature; behaviour (sets the second button label) is spec section 4.1. -/
def MessageFormData.button2 (f : MessageFormData) (text : RawText) : MessageFormData :=
  { f with button2Text := some text }

/-- One control of a Modal form, with the parameters declared in
src/index.d.ts lines 169-203 (dropdown, slider, textField, toggle). -/
inductive ModalControl where
  | dropdown (label : RawText) (options : List RawText) (defaultValueIndex : Option Nat)
  | slider (label : RawText) (minimumValue maximumValue valueStep : Int)
      (defaultValue : Option Int)
  | textField (label : RawText) (placeholderText : RawText) (defaultValue : Option String)
  | toggle (label : RawText) (defaultValue : Option Bool)
deriving DecidableEq, Repr

/-- Accumulated state of a `ModalFormData` builder (src/index.d.ts lines
161-204): a title and an ordered control list.  The class declares no
`body` method. -/
structure ModalFormData where
  titleText : Option RawText
  controls : List ModalControl
deriving DecidableEq, Repr

/-- `new ModalFormData()`: src/index.d.ts line 165. -/
def ModalFormData.new : ModalFormData :=
  { titleText := none, controls := [] }

/-- Modelled from the spec: src/index.d.ts line 199 declares only the
signature; behaviour (sets the title, last call wins) is spec section 4.1. -/
def ModalFormData.title (f : ModalFormData) (titleText : RawText) : ModalFormData :=
  { f with titleText := some titleText }

/-- Modelled from the spec: src/index.d.ts lines 169-172 declare only the
signature; behaviour (appends one dropdown control) is spec section 4.1. -/
def ModalFormData.dropdown (f : ModalFormData) (label : RawText)
    (options : List RawText) (defaultValueIndex : Option Nat) : ModalFormData :=
  { f with controls := f.controls ++ [.dropdown label options defaultValueIndex] }

/-- Modelled from the spec: src/index.d.ts lines 183-188 declare only the
signature; behaviour (appends one slider control) is spec section 4.1. -/
def ModalFormData.slider (f : ModalFormData) (label : RawText)
    (minimumValue maximumValue valueStep : Int) (defaultValue : Option Int) : ModalFormData :=
  { f with controls :=
      f.controls ++ [.slider label minimumValue maximumValue valueStep defaultValue] }

/-- Modelled from the spec: src/index.d.ts lines 192-195 declare only the
signature; behaviour (appends one text-field control) is spec section 4.1. -/
def ModalFormData.textField (f : ModalFormData) (label : RawText)
    (placeholderText : RawText) (defaultValue : Option String) : ModalFormData :=
  { f with controls := f.controls ++ [.textField label placeholderText defaultValue] }

/-- Modelled from the spec: src/index.d.ts line 203 declares only the
signature; behaviour (appends one toggle control) is spec section 4.1. -/
def ModalFormData.toggle (f : ModalFormData) (label : RawText)
    (defaultValue : Option Bool) : ModalFormData :=
  { f with controls := f.controls ++ [.toggle label defaultValue] }

/-- Modelled from the spec: the delivery channel of a `show` call
(src/index.d.ts lines 85, 142, 179 declare only `show(player): Promise<R>`).
Spec section 7: outcomes are delivered through the normal successful
resolution of the deferred result (`resolved`), while the caller's
failure-propagation path (`thrownError`, i.e. a promise rejection) is
reserved for environment-level faults outside the contract. -/
inductive Delivered (α : Type) where
  | resolved (value : α)
  | thrownError (message : String)
deriving DecidableEq, Repr

/-- Whether a delivered value went through the normal resolution path. -/
def Delivered.isResolved {α : Type} : Delivered α → Bool
  | .resolved _ => true
  | .thrownError _ => false

/-- Modelled from the spec: the host-side event that terminates one shown
form (spec sections 3 and 5).  The user was busy with another dialog, the
user closed the dialog, the host rejected the request, or the user submitted
an input of type `input`. -/
inductive HostEvent (input : Type) where
  | busy
  | closed
  | hostRejected (reason : FormRejectionReason)
  | submitted (value : input)
deriving DecidableEq, Repr

/-- Modelled from the spec: the user's raw interaction with one Modal
control, per control kind (spec section 3). -/
inductive ModalInput where
  | dropdownChoice (index : Nat)
  | sliderChoice (value : Int)
  | textEntry (text : String)
  | toggleChoice (value : Bool)
deriving DecidableEq, Repr

/-- The branch of the `boolean | number | string` union a `ModalValue`
inhabits. -/
inductive ModalValueKind where
  | booleanKind
  | numberKind
  | stringKind
deriving DecidableEq, Repr

/-- The union branch of a concrete modal value. -/
def ModalValue.kind : ModalValue → ModalValueKind
  | .ofBool _ => .booleanKind
  | .ofNumber _ => .numberKind
  | .ofString _ => .stringKind

/-- The union branch a control's submitted value must inhabit (spec section
3: boolean for toggle, number for slider, string for text field, number
[option index] for dropdown). -/
def ModalControl.valueKind : ModalControl → ModalValueKind
  | .dropdown _ _ _ => .numberKind
  | .slider _ _ _ _ _ => .numberKind
  | .textField _ _ _ => .stringKind
  | .toggle _ _ => .booleanKind

/-- Modelled from the spec: how the host turns the user's interaction with
one control into one response value (spec section 3).  A dropdown yields the
chosen option index as a number (only an in-range index is well-formed); a
slider yields the chosen number; a text field the entered string; a toggle
the chosen boolean.  A kind mismatch is malformed (`none`). -/
def resolveControl : ModalControl → ModalInput → Option ModalValue
  | .dropdown _ options _, .dropdownChoice i =>
      if i < options.length then some (.ofNumber (Int.ofNat i)) else none
  | .slider _ _ _ _ _, .sliderChoice v => some (.ofNumber v)
  | .textField _ _ _, .textEntry s => some (.ofString s)
  | .toggle _ _, .toggleChoice b => some (.ofBool b)
  | _, _ => none

/-- Modelled from the spec: resolve each control of the submitted list
against the user's interactions, positionally; any arity or kind mismatch is
malformed (`none`). -/
def resolveControls : List ModalControl → List ModalInput → Option (List ModalValue)
  | [], [] => some []
  | c :: cs, i :: is =>
      match resolveControl c i, resolveControls cs is with
      | some v, some vs => some (v :: vs)
      | _, _ => none
  | _, _ => none

/-- Modelled from the spec: host resolution of `ActionFormData.show`
(src/index.d.ts line 85 declares only the signature).  Cancelation resolves
with `canceled = true` and the matching reason and no selection; a completed
press of an existing button resolves with `canceled = false` and its index;
a press outside the button list is malformed; a host rejection resolves,
still on the normal path, with the rejection reason (spec sections 4.2 and
7). -/
def ActionFormData.show (f : ActionFormData) (ev : HostEvent Nat) :
    Delivered (ActionFormResponse ⊕ FormRejectionReason) :=
  match ev with
  | .busy =>
      .resolved (.inl { canceled := true, cancelationReason := some .UserBusy,
                        selection := none })
  | .closed =>
      .resolved (.inl { canceled := true, cancelationReason := some .UserClosed,
                        selection := none })
  | .hostRejected r => .resolved (.inr r)
  | .submitted i =>
      if i < f.buttons.length then
        .resolved (.inl { canceled := false, cancelationReason := none,
                          selection := some i })
      else
        .resolved (.inr .MalformedResponse)

/-- Modelled from the spec: host resolution of `MessageFormData.show`
(src/index.d.ts line 142 declares only the signature).  A Message form has
exactly the two button slots 0 and 1 (spec section 4.1). -/
def MessageFormData.show (f : MessageFormData) (ev : HostEvent Nat) :
    Delivered (MessageFormResponse ⊕ FormRejectionReason) :=
  match ev with
  | .busy =>
      .resolved (.inl { canceled := true, cancelationReason := some .UserBusy,
                        selection := none })
  | .closed =>
      .resolved (.inl { canceled := true, cancelationReason := some .UserClosed,
                        selection := none })
  | .hostRejected r => .resolved (.inr r)
  | .submitted i =>
      if i < 2 then
        .resolved (.inl { canceled := false, cancelationReason := none,
                          selection := some i })
      else
        .resolved (.inr .MalformedResponse)

/-- Modelled from the spec: the label a Message form displays at selection
index `i` — slot 0 shows the `button1` label and slot 1 the `button2` label
(spec section 4.2). -/
def MessageFormData.labelAt (f : MessageFormData) : Nat → Option RawText
  | 0 => f.button1Text
  | 1 => f.button2Text
  | _ => none

/-- Modelled from the spec: host resolution of `ModalFormData.show`
(src/index.d.ts line 179 declares only the signature).  A completed
submission resolves with one value per declared control, in declaration
order; a submission that does not match the control list is malformed (spec
sections 3 and 4.2). -/
def ModalFormData.show (f : ModalFormData) (ev : HostEvent (List ModalInput)) :
    Delivered (ModalFormResponse ⊕ FormRejectionReason) :=
  match ev with
  | .busy =>
      .resolved (.inl { canceled := true, cancelationReason := some .UserBusy,
                        formValues := none })
  | .closed =>
      .resolved (.inl { canceled := true, cancelationReason := some .UserClosed,
                        formValues := none })
  | .hostRejected r => .resolved (.inr r)
  | .submitted ins =>
      match resolveControls f.controls ins with
      | some vs =>
          .resolved (.inl { canceled := false, cancelationReason := none,
                            formValues := some vs })
      | none => .resolved (.inr .MalformedResponse)

/-- One configuration call on an `ActionFormData` builder, used to quantify
over every call order. -/
inductive ActionCall where
  | title (t : RawText)
  | body (t : RawText)
  | button (text : RawText) (iconPath : Option String)
deriving DecidableEq, Repr

/-- Apply one configuration call to an Action builder. -/
def applyActionCall (f : ActionFormData) : ActionCall → ActionFormData
  | .title t => f.title t
  | .body t => f.body t
  | .button t icon => f.button t icon

/-- The Action builder produced by a sequence of configuration calls,
starting from `new ActionFormData()`. -/
def buildAction (calls : List ActionCall) : ActionFormData :=
  calls.foldl applyActionCall ActionFormData.new

/-- The button a configuration call appends, if it is a `button` call. -/
def ActionCall.buttonOf : ActionCall → Option ActionButton
  | .button t icon => some { text := t, iconPath := icon }
  | _ => none

/-- The buttons contributed by a call sequence, in call order. -/
def actionButtons (calls : List ActionCall) : List ActionButton :=
  calls.filterMap ActionCall.buttonOf

/-- One configuration call on a `MessageFormData` builder. -/
inductive MessageCall where
  | title (t : RawText)
  | body (t : RawText)
  | button1 (t : RawText)
  | button2 (t : RawText)
deriving DecidableEq, Repr

/-- Apply one configuration call to a Message builder. -/
def applyMessageCall (f : MessageFormData) : MessageCall → MessageFormData
  | .title t => f.title t
  | .body t => f.body t
  | .button1 t => f.button1 t
  | .button2 t => f.button2 t

/-- The Message builder produced by a sequence of configuration calls,
starting from `new MessageFormData()`. -/
def buildMessage (calls : List MessageCall) : MessageFormData :=
  calls.foldl applyMessageCall MessageFormData.new

/-- The argument of the last `button1` call in the sequence, if any. -/
def lastButton1 (calls : List MessageCall) : Option RawText :=
  calls.foldl (fun acc c => match c with | .button1 t => some t | _ => acc) none

/-- The argument of the last `button2` call in the sequence, if any. -/
def lastButton2 (calls : List MessageCall) : Option RawText :=
  calls.foldl (fun acc c => match c with | .button2 t => some t | _ => acc) none

/-- One configuration call on a `ModalFormData` builder. -/
inductive ModalCall where
  | title (t : RawText)
  | dropdown (label : RawText) (options : List RawText) (defaultValueIndex : Option Nat)
  | slider (label : RawText) (minimumValue maximumValue valueStep : Int)
      (defaultValue : Option Int)
  | textField (label : RawText) (placeholderText : RawText) (defaultValue : Option String)
  | toggle (label : RawText) (defaultValue : Option Bool)
deriving DecidableEq, Repr

/-- Apply one configuration call to a Modal builder. -/
def applyModalCall (f : ModalFormData) : ModalCall → ModalFormData
  | .title t => f.title t
  | .dropdown l o d => f.dropdown l o d
  | .slider l mn mx st d => f.slider l mn mx st d
  | .textField l ph d => f.textField l ph d
  | .toggle l d => f.toggle l d

/-- The Modal builder produced by a sequence of configuration calls,
starting from `new ModalFormData()`. -/
def buildModal (calls : List ModalCall) : ModalFormData :=
  calls.foldl applyModalCall ModalFormData.new

/-- The control a configuration call appends, if it is a control call. -/
def ModalCall.controlOf : ModalCall → Option ModalControl
  | .title _ => none
  | .dropdown l o d => some (.dropdown l o d)
  | .slider l mn mx st d => some (.slider l mn mx st d)
  | .textField l ph d => some (.textField l ph d)
  | .toggle l d => some (.toggle l d)

/-- The controls contributed by a call sequence, in call order. -/
def modalControls (calls : List ModalCall) : List ModalControl :=
  calls.filterMap ModalCall.controlOf

/-- Folding configuration calls over an Action builder appends exactly the
buttons of the `button` calls, in call order, after the existing ones. -/
lemma foldl_actionCall_buttons (calls : List ActionCall) :
    ∀ f : ActionFormData,
      (calls.foldl applyActionCall f).buttons = f.buttons ++ actionButtons calls := by
  induction calls with
  | nil => intro f; simp [actionButtons]
  | cons c cs ih =>
      intro f
      cases c <;>
        simp [List.foldl_cons, applyActionCall, ActionFormData.title, ActionFormData.body,
              ActionFormData.button, actionButtons, List.filterMap_cons, ActionCall.buttonOf,
              ih, List.append_assoc]

/-- The buttons of a built Action form are the `button` calls, in order. -/
lemma buildAction_buttons (calls : List ActionCall) :
    (buildAction calls).buttons = actionButtons calls := by
  simpa [buildAction, ActionFormData.new] using foldl_actionCall_buttons calls ActionFormData.new

/-- Folding configuration calls over a Modal builder appends exactly the
controls of the control calls, in call order, after the existing ones. -/
lemma foldl_modalCall_controls (calls : List ModalCall) :
    ∀ f : ModalFormData,
      (calls.foldl applyModalCall f).controls = f.controls ++ modalControls calls := by
  induction calls with
  | nil => intro f; simp [modalControls]
  | cons c cs ih =>
      intro f
      cases c <;>
        simp [List.foldl_cons, applyModalCall, ModalFormData.title, ModalFormData.dropdown,
              ModalFormData.slider, ModalFormData.textField, ModalFormData.toggle,
              modalControls, List.filterMap_cons, ModalCall.controlOf, ih, List.append_assoc]

/-- The controls of a built Modal form are the control calls, in order. -/
lemma buildModal_controls (calls : List ModalCall) :
    (buildModal calls).controls = modalControls calls := by
  simpa [buildModal, ModalFormData.new] using foldl_modalCall_controls calls ModalFormData.new

/-- Folding configuration calls over a Message builder updates the first
button label exactly as the last-`button1`-call fold does. -/
lemma foldl_messageCall_button1 (calls : List MessageCall) :
    ∀ f : MessageFormData,
      (calls.foldl applyMessageCall f).button1Text =
        calls.foldl (fun acc c => match c with | .button1 t => some t | _ => acc)
          f.button1Text := by
  induction calls with
  | nil => intro f; rfl
  | cons c cs ih =>
      intro f
      cases c <;>
        simp [List.foldl_cons, applyMessageCall, MessageFormData.title, MessageFormData.body,
              MessageFormData.button1, MessageFormData.button2, ih]

/-- Folding configuration calls over a Message builder updates the second
button label exactly as the last-`button2`-call fold does. -/
lemma foldl_messageCall_button2 (calls : List MessageCall) :
    ∀ f : MessageFormData,
      (calls.foldl applyMessageCall f).button2Text =
        calls.foldl (fun acc c => match c with | .button2 t => some t | _ => acc)
          f.button2Text := by
  induction calls with
  | nil => intro f; rfl
  | cons c cs ih =>
      intro f
      cases c <;>
        simp [List.foldl_cons, applyMessageCall, MessageFormData.title, MessageFormData.body,
              MessageFormData.button1, MessageFormData.button2, ih]

/-- The first button label of a built Message form is the argument of the
last `button1` call, whatever other calls surround it. -/
lemma buildMessage_button1 (calls : List MessageCall) :
    (buildMessage calls).button1Text = lastButton1 calls := by
  simpa [buildMessage, MessageFormData.new, lastButton1] using
    foldl_messageCall_button1 calls MessageFormData.new

/-- The second button label of a built Message form is the argument of the
last `button2` call, whatever other calls surround it. -/
lemma buildMessage_button2 (calls : List MessageCall) :
    (buildMessage calls).button2Text = lastButton2 calls := by
  simpa [buildMessage, MessageFormData.new, lastButton2] using
    foldl_messageCall_button2 calls MessageFormData.new

/-- A successfully resolved control value inhabits the union branch the
control prescribes. -/
lemma resolveControl_kind {c : ModalControl} {i : ModalInput} {v : ModalValue}
    (h : resolveControl c i = some v) : v.kind = c.valueKind := by
  cases c <;> cases i <;>
    simp [resolveControl, ModalControl.valueKind] at h ⊢ <;>
    first
    | (subst h; rfl)
    | (obtain ⟨-, hv⟩ := h; subst hv; rfl)

/-- A successfully resolved submission has exactly one value per control. -/
lemma resolveControls_length :
    ∀ {cs : List ModalControl} {ins : List ModalInput} {vs : List ModalValue},
      resolveControls cs ins = some vs → vs.length = cs.length := by
  intro cs
  induction cs with
  | nil =>
      intro ins vs h
      cases ins <;> simp [resolveControls] at h
      simp [← h]
  | cons c cs ih =>
      intro ins vs h
      cases ins with
      | nil => simp [resolveControls] at h
      | cons i is =>
          simp only [resolveControls] at h
          cases hr : resolveControl c i with
          | none => rw [hr] at h; simp at h
          | some v =>
              rw [hr] at h
              cases hrs : resolveControls cs is with
              | none => rw [hrs] at h; simp at h
              | some ws =>
                  rw [hrs] at h
                  simp at h
                  subst h
                  simp [ih hrs]

/-- In a successfully resolved submission, the value at each position
inhabits the union branch prescribed by the control at that position. -/
lemma resolveControls_kind :
    ∀ {cs : List ModalControl} {ins : List ModalInput} {vs : List ModalValue},
      resolveControls cs ins = some vs →
      ∀ (n : Nat) (h1 : n < vs.length) (h2 : n < cs.length),
        (vs.get ⟨n, h1⟩).kind = (cs.get ⟨n, h2⟩).valueKind := by
  intro cs
  induction cs with
  | nil => intro ins vs h n h1 h2; exact absurd h2 (Nat.not_lt_zero n)
  | cons c cs ih =>
      intro ins vs h n h1 h2
      cases ins with
      | nil => simp [resolveControls] at h
      | cons i is =>
          simp only [resolveControls] at h
          cases hr : resolveControl c i with
          | none => rw [hr] at h; simp at h
          | some v =>
              rw [hr] at h
              cases hrs : resolveControls cs is with
              | none => rw [hrs] at h; simp at h
              | some ws =>
                  rw [hrs] at h
                  simp at h
                  subst h
                  cases n with
                  | zero => simpa using resolveControl_kind hr
                  | succ m =>
                      exact ih hrs m (Nat.lt_of_succ_lt_succ h1) (Nat.lt_of_succ_lt_succ h2)

/-- C1: For every Modal form built from controls C1..Cn (in that order of
dropdown/slider/textField/toggle calls) and every Completed outcome of
showing it, the outcome's formValues list has length n and its i-th element
has the type determined by the i-th control's kind: boolean for toggle,
number for slider, string for text field, and number (an option index) for
dropdown. -/
theorem modal_completed_formValues_typed (calls : List ModalCall)
    (ins : List ModalInput) (resp : ModalFormResponse) (vs : List ModalValue)
    (h : (buildModal calls).show (.submitted ins) = .resolved (.inl resp))
    (hv : resp.formValues = some vs) :
    vs.length = (modalControls calls).length
    ∧ ∀ (n : Nat) (h1 : n < vs.length) (h2 : n < (modalControls calls).length),
        (vs.get ⟨n, h1⟩).kind = ((modalControls calls).get ⟨n, h2⟩).valueKind := by
  simp only [ModalFormData.show, buildModal_controls] at h
  cases hres : resolveControls (modalControls calls) ins with
  | none => rw [hres] at h; simp at h
  | some ws =>
      rw [hres] at h
      have hresp := Sum.inl.inj (Delivered.resolved.inj h)
      subst hresp
      obtain rfl : ws = vs := Option.some.inj hv
      exact ⟨resolveControls_length hres, resolveControls_kind hres⟩

/-- Witness for C1 at a concrete form: one toggle then one slider, submitted
as true and 5; the completed value list has one value per control. -/
theorem modal_completed_formValues_typed_witness :
    ([ModalValue.ofBool true, ModalValue.ofNumber 5] : List ModalValue).length
      = (modalControls [ModalCall.toggle (.plain "Enabled") (some true),
          ModalCall.slider (.plain "Amount") 0 10 1 (some 5)]).length :=
  (modal_completed_formValues_typed
    [ModalCall.toggle (.plain "Enabled") (some true),
     ModalCall.slider (.plain "Amount") 0 10 1 (some 5)]
    [ModalInput.toggleChoice true, ModalInput.sliderChoice 5]
    { canceled := false, cancelationReason := none,
      formValues := some [ModalValue.ofBool true, ModalValue.ofNumber 5] }
    [ModalValue.ofBool true, ModalValue.ofNumber 5]
    (by decide) (by decide)).1

/-- C2: For every Action form on which button was called exactly N times,
every Completed outcome of showing it has a selection that is an integer in
the half-open range [0, N). -/
theorem action_completed_selection_in_range (calls : List ActionCall)
    (ev : HostEvent Nat) (resp : ActionFormResponse)
    (h : (buildAction calls).show ev = .resolved (.inl resp))
    (hc : resp.canceled = false) :
    ∃ i : Nat, resp.selection = some i ∧ i < (actionButtons calls).length := by
  cases ev with
  | busy =>
      simp only [ActionFormData.show] at h
      have hresp := Sum.inl.inj (Delivered.resolved.inj h)
      subst hresp
      exact absurd hc (by simp)
  | closed =>
      simp only [ActionFormData.show] at h
      have hresp := Sum.inl.inj (Delivered.resolved.inj h)
      subst hresp
      exact absurd hc (by simp)
  | hostRejected r =>
      simp [ActionFormData.show] at h
  | submitted i =>
      simp only [ActionFormData.show, buildAction_buttons] at h
      by_cases hi : i < (actionButtons calls).length
      · rw [if_pos hi] at h
        have hresp := Sum.inl.inj (Delivered.resolved.inj h)
        subst hresp
        exact ⟨i, rfl, hi⟩
      · rw [if_neg hi] at h
        simp at h

/-- Witness for C2 at the five-button months example, with the fourth button
pressed. -/
theorem action_completed_selection_in_range_witness :
    ∃ i : Nat,
      ({ canceled := false, cancelationReason := none,
         selection := some 3 } : ActionFormResponse).selection = some i
      ∧ i < (actionButtons
          [ActionCall.title (.plain "Months"),
           ActionCall.body (.plain "Choose your favorite month!"),
           ActionCall.button (.plain "January") none,
           ActionCall.button (.plain "February") none,
           ActionCall.button (.plain "March") none,
           ActionCall.button (.plain "April") none,
           ActionCall.button (.plain "May") none]).length :=
  action_completed_selection_in_range
    [ActionCall.title (.plain "Months"),
     ActionCall.body (.plain "Choose your favorite month!"),
     ActionCall.button (.plain "January") none,
     ActionCall.button (.plain "February") none,
     ActionCall.button (.plain "March") none,
     ActionCall.button (.plain "April") none,
     ActionCall.button (.plain "May") none]
    (.submitted 3)
    { canceled := false, cancelationReason := none, selection := some 3 }
    (by decide) (by decide)

/-- C3: Every form response (for all three form kinds and all outcomes) has
a present boolean canceled flag (the `canceled` field is non-optional in all
embedded response types), and whenever canceled is true, a cancellation
reason (one of UserBusy, UserClosed) is also present on the response. -/
theorem response_canceled_has_reason :
    (∀ (f : ActionFormData) (ev : HostEvent Nat) (resp : ActionFormResponse),
       f.show ev = .resolved (.inl resp) → resp.canceled = true →
       ∃ r : FormCancelationReason, resp.cancelationReason = some r)
    ∧ (∀ (f : MessageFormData) (ev : HostEvent Nat) (resp : MessageFormResponse),
       f.show ev = .resolved (.inl resp) → resp.canceled = true →
       ∃ r : FormCancelationReason, resp.cancelationReason = some r)
    ∧ (∀ (f : ModalFormData) (ev : HostEvent (List ModalInput))
         (resp : ModalFormResponse),
       f.show ev = .resolved (.inl resp) → resp.canceled = true →
       ∃ r : FormCancelationReason, resp.cancelationReason = some r) := by
  refine ⟨?_, ?_, ?_⟩
  · intro f ev resp h hc
    cases ev with
    | busy =>
        have hresp := Sum.inl.inj (Delivered.resolved.inj h)
        subst hresp
        exact ⟨.UserBusy, rfl⟩
    | closed =>
        have hresp := Sum.inl.inj (Delivered.resolved.inj h)
        subst hresp
        exact ⟨.UserClosed, rfl⟩
    | hostRejected r => simp [ActionFormData.show] at h
    | submitted i =>
        simp only [ActionFormData.show] at h
        split at h
        · have hresp := Sum.inl.inj (Delivered.resolved.inj h)
          subst hresp
          exact absurd hc (by simp)
        · simp at h
  · intro f ev resp h hc
    cases ev with
    | busy =>
        have hresp := Sum.inl.inj (Delivered.resolved.inj h)
        subst hresp
        exact ⟨.UserBusy, rfl⟩
    | closed =>
        have hresp := Sum.inl.inj (Delivered.resolved.inj h)
        subst hresp
        exact ⟨.UserClosed, rfl⟩
    | hostRejected r => simp [MessageFormData.show] at h
    | submitted i =>
        simp only [MessageFormData.show] at h
        split at h
        · have hresp := Sum.inl.inj (Delivered.resolved.inj h)
          subst hresp
          exact absurd hc (by simp)
        · simp at h
  · intro f ev resp h hc
    cases ev with
    | busy =>
        have hresp := Sum.inl.inj (Delivered.resolved.inj h)
        subst hresp
        exact ⟨.UserBusy, rfl⟩
    | closed =>
        have hresp := Sum.inl.inj (Delivered.resolved.inj h)
        subst hresp
        exact ⟨.UserClosed, rfl⟩
    | hostRejected r => simp [ModalFormData.show] at h
    | submitted ins =>
        simp only [ModalFormData.show] at h
        cases hres : resolveControls f.controls ins with
        | none => rw [hres] at h; simp at h
        | some vs =>
            rw [hres] at h
            have hresp := Sum.inl.inj (Delivered.resolved.inj h)
            subst hresp
            exact absurd hc (by simp)

/-- Witness for C3: a busy cancelation of an empty Action form carries a
reason. -/
theorem response_canceled_has_reason_witness :
    ∃ r : FormCancelationReason,
      ({ canceled := true, cancelationReason := some .UserBusy,
         selection := none } : ActionFormResponse).cancelationReason = some r :=
  response_canceled_has_reason.1 ActionFormData.new .busy
    { canceled := true, cancelationReason := some .UserBusy, selection := none }
    (by decide) (by decide)

/-- C4: For every response with canceled = true, the selection field
(Action/Message forms) and the formValues field (Modal forms) are absent
(`none`, the explicit no-value of the optional field, so reading them cannot
crash), and these fields are present only when the form was not canceled. -/
theorem canceled_response_has_no_data :
    (∀ (f : ActionFormData) (ev : HostEvent Nat) (resp : ActionFormResponse),
       f.show ev = .resolved (.inl resp) →
       (resp.canceled = true → resp.selection = none)
       ∧ (resp.selection.isSome = true → resp.canceled = false))
    ∧ (∀ (f : MessageFormData) (ev : HostEvent Nat) (resp : MessageFormResponse),
       f.show ev = .resolved (.inl resp) →
       (resp.canceled = true → resp.selection = none)
       ∧ (resp.selection.isSome = true → resp.canceled = false))
    ∧ (∀ (f : ModalFormData) (ev : HostEvent (List ModalInput))
         (resp : ModalFormResponse),
       f.show ev = .resolved (.inl resp) →
       (resp.canceled = true → resp.formValues = none)
       ∧ (resp.formValues.isSome = true → resp.canceled = false)) := by
  refine ⟨?_, ?_, ?_⟩
  · intro f ev resp h
    cases ev with
    | busy =>
        have hresp := Sum.inl.inj (Delivered.resolved.inj h)
        subst hresp
        exact ⟨fun _ => rfl, by simp⟩
    | closed =>
        have hresp := Sum.inl.inj (Delivered.resolved.inj h)
        subst hresp
        exact ⟨fun _ => rfl, by simp⟩
    | hostRejected r => simp [ActionFormData.show] at h
    | submitted i =>
        simp only [ActionFormData.show] at h
        split at h
        · have hresp := Sum.inl.inj (Delivered.resolved.inj h)
          subst hresp
          exact ⟨by simp, fun _ => rfl⟩
        · simp at h
  · intro f ev resp h
    cases ev with
    | busy =>
        have hresp := Sum.inl.inj (Delivered.resolved.inj h)
        subst hresp
        exact ⟨fun _ => rfl, by simp⟩
    | closed =>
        have hresp := Sum.inl.inj (Delivered.resolved.inj h)
        subst hresp
        exact ⟨fun _ => rfl, by simp⟩
    | hostRejected r => simp [MessageFormData.show] at h
    | submitted i =>
        simp only [MessageFormData.show] at h
        split at h
        · have hresp := Sum.inl.inj (Delivered.resolved.inj h)
          subst hresp
          exact ⟨by simp, fun _ => rfl⟩
        · simp at h
  · intro f ev resp h
    cases ev with
    | busy =>
        have hresp := Sum.inl.inj (Delivered.resolved.inj h)
        subst hresp
        exact ⟨fun _ => rfl, by simp⟩
    | closed =>
        have hresp := Sum.inl.inj (Delivered.resolved.inj h)
        subst hresp
        exact ⟨fun _ => rfl, by simp⟩
    | hostRejected r => simp [ModalFormData.show] at h
    | submitted ins =>
        simp only [ModalFormData.show] at h
        cases hres : resolveControls f.controls ins with
        | none => rw [hres] at h; simp at h
        | some vs =>
            rw [hres] at h
            have hresp := Sum.inl.inj (Delivered.resolved.inj h)
            subst hresp
            exact ⟨by simp, fun _ => rfl⟩

/-- Witness for C4: a user-closed Modal cancelation has no formValues. -/
theorem canceled_response_has_no_data_witness :
    ({ canceled := true, cancelationReason := some .UserClosed,
       formValues := none } : ModalFormResponse).formValues = none :=
  (canceled_response_has_no_data.2.2 ModalFormData.new .closed
    { canceled := true, cancelationReason := some .UserClosed, formValues := none }
    (by decide)).1 (by decide)

/-- C5: For every submission, both cancelation outcomes and rejection
outcomes (MalformedResponse, PlayerQuit, ServerShutdown) are delivered
through the normal successful resolution of the deferred `show` result — as
a resolved value that either is a response with canceled = true or carries
a rejection reason — and never through the caller's failure-propagation
(promise-rejection) path. -/
theorem outcomes_use_normal_resolution :
    (∀ (f : ActionFormData) (ev : HostEvent Nat),
       (f.show ev).isResolved = true
       ∧ (ev = .busy ∨ ev = .closed →
            ∃ resp, f.show ev = .resolved (.inl resp) ∧ resp.canceled = true)
       ∧ (∀ r, ev = .hostRejected r → f.show ev = .resolved (.inr r)))
    ∧ (∀ (f : MessageFormData) (ev : HostEvent Nat),
       (f.show ev).isResolved = true
       ∧ (ev = .busy ∨ ev = .closed →
            ∃ resp, f.show ev = .resolved (.inl resp) ∧ resp.canceled = true)
       ∧ (∀ r, ev = .hostRejected r → f.show ev = .resolved (.inr r)))
    ∧ (∀ (f : ModalFormData) (ev : HostEvent (List ModalInput)),
       (f.show ev).isResolved = true
       ∧ (ev = .busy ∨ ev = .closed →
            ∃ resp, f.show ev = .resolved (.inl resp) ∧ resp.canceled = true)
       ∧ (∀ r, ev = .hostRejected r → f.show ev = .resolved (.inr r))) := by
  refine ⟨?_, ?_, ?_⟩
  · intro f ev
    refine ⟨?_, ?_, ?_⟩
    · cases ev with
      | busy => rfl
      | closed => rfl
      | hostRejected r => rfl
      | submitted i =>
          by_cases hi : i < f.buttons.length <;>
            simp [ActionFormData.show, Delivered.isResolved, hi]
    · rintro (rfl | rfl)
      · exact ⟨_, rfl, rfl⟩
      · exact ⟨_, rfl, rfl⟩
    · rintro r rfl
      rfl
  · intro f ev
    refine ⟨?_, ?_, ?_⟩
    · cases ev with
      | busy => rfl
      | closed => rfl
      | hostRejected r => rfl
      | submitted i =>
          by_cases hi : i < 2 <;>
            simp [MessageFormData.show, Delivered.isResolved, hi]
    · rintro (rfl | rfl)
      · exact ⟨_, rfl, rfl⟩
      · exact ⟨_, rfl, rfl⟩
    · rintro r rfl
      rfl
  · intro f ev
    refine ⟨?_, ?_, ?_⟩
    · cases ev with
      | busy => rfl
      | closed => rfl
      | hostRejected r => rfl
      | submitted ins =>
          cases hres : resolveControls f.controls ins <;>
            simp [ModalFormData.show, Delivered.isResolved, hres]
    · rintro (rfl | rfl)
      · exact ⟨_, rfl, rfl⟩
      · exact ⟨_, rfl, rfl⟩
    · rintro r rfl
      rfl

/-- Witness for C5: a PlayerQuit rejection of an empty Message form is
delivered as a normally resolved value carrying the reason. -/
theorem outcomes_use_normal_resolution_witness :
    MessageFormData.new.show (.hostRejected .PlayerQuit)
      = .resolved (.inr .PlayerQuit) :=
  (outcomes_use_normal_resolution.2.1 MessageFormData.new
    (.hostRejected .PlayerQuit)).2.2 .PlayerQuit (by decide)

/-- C6: For every Message form, a Completed outcome's selection value 0
corresponds to the label passed to button1 and selection value 1 corresponds
to the label passed to button2, regardless of the order in which title,
body, button1, and button2 were called on the builder. -/
theorem message_selection_matches_buttons (calls : List MessageCall)
    (ev : HostEvent Nat) (resp : MessageFormResponse) (s : Nat)
    (h : (buildMessage calls).show ev = .resolved (.inl resp))
    (hc : resp.canceled = false) (hs : resp.selection = some s) :
    (s = 0 → (buildMessage calls).labelAt s = lastButton1 calls)
    ∧ (s = 1 → (buildMessage calls).labelAt s = lastButton2 calls) := by
  constructor
  · rintro rfl
    have hl : (buildMessage calls).labelAt 0 = (buildMessage calls).button1Text := rfl
    rw [hl, buildMessage_button1]
  · rintro rfl
    have hl : (buildMessage calls).labelAt 1 = (buildMessage calls).button2Text := rfl
    rw [hl, buildMessage_button2]

/-- Witness for C6: with button2 configured first, then title, then button1,
the completed selection 0 still shows the button1 label. -/
theorem message_selection_matches_buttons_witness :
    (buildMessage [MessageCall.button2 (.plain "No"),
        MessageCall.title (.plain "Confirm"),
        MessageCall.button1 (.plain "Yes")]).labelAt 0
      = lastButton1 [MessageCall.button2 (.plain "No"),
          MessageCall.title (.plain "Confirm"),
          MessageCall.button1 (.plain "Yes")] :=
  (message_selection_matches_buttons
    [MessageCall.button2 (.plain "No"), MessageCall.title (.plain "Confirm"),
     MessageCall.button1 (.plain "Yes")]
    (.submitted 0)
    { canceled := false, cancelationReason := none, selection := some 0 }
    0 (by decide) (by decide) (by decide)).1 rfl

/-- The set of configuration and submission methods a form-data class
declares in src/index.d.ts, one flag per method name occurring on the three
builder classes. -/
structure DeclaredMethods where
  hasTitle : Bool
  hasBody : Bool
  hasButton : Bool
  hasButton1 : Bool
  hasButton2 : Bool
  hasDropdown : Bool
  hasSlider : Bool
  hasTextField : Bool
  hasToggle : Bool
  hasShow : Bool
deriving DecidableEq, Repr

/-- Methods declared on `ActionFormData`, src/index.d.ts lines 66-90: body,
button, show, title. -/
def ActionFormData.declaredMethods : DeclaredMethods :=
  { hasTitle := true, hasBody := true, hasButton := true, hasButton1 := false,
    hasButton2 := false, hasDropdown := false, hasSlider := false,
    hasTextField := false, hasToggle := false, hasShow := true }

/-- Methods declared on `MessageFormData`, src/index.d.ts lines 119-147:
body, button1, button2, show, title. -/
def MessageFormData.declaredMethods : DeclaredMethods :=
  { hasTitle := true, hasBody := true, hasButton := false, hasButton1 := true,
    hasButton2 := true, hasDropdown := false, hasSlider := false,
    hasTextField := false, hasToggle := false, hasShow := true }

/-- Methods declared on `ModalFormData`, src/index.d.ts lines 161-204:
dropdown, show, slider, textField, title, toggle — and no body. -/
def ModalFormData.declaredMethods : DeclaredMethods :=
  { hasTitle := true, hasBody := false, hasButton := false, hasButton1 := false,
    hasButton2 := false, hasDropdown := true, hasSlider := true,
    hasTextField := true, hasToggle := true, hasShow := true }

/-- C7 counterexample: it is false that each of the three form builders
provides both a title operation and a body operation — `ModalFormData`
declares no body method (src/index.d.ts lines 161-204). -/
theorem not_all_builders_have_body :
    ¬ (ActionFormData.declaredMethods.hasBody = true
       ∧ MessageFormData.declaredMethods.hasBody = true
       ∧ ModalFormData.declaredMethods.hasBody = true) := by
  decide

/-- C7 (amended): all three form builders declare a title(text) operation;
the Action and Message builders also declare a body(text) operation, but the
Modal builder declares none. -/
theorem builders_title_body_surface :
    ActionFormData.declaredMethods.hasTitle = true
    ∧ ActionFormData.declaredMethods.hasBody = true
    ∧ MessageFormData.declaredMethods.hasTitle = true
    ∧ MessageFormData.declaredMethods.hasBody = true
    ∧ ModalFormData.declaredMethods.hasTitle = true
    ∧ ModalFormData.declaredMethods.hasBody = false := by
  decide

/-- C8: Every configuration call returns a builder value usable for further
left-to-right chaining (each operation maps a builder to a builder, and the
fold over any call sequence is well defined), title and body only set their
field, each button/control call appends exactly one entry, and call order
determines index order with the first call mapped to index 0: the button
list (resp. control list) of a built form is exactly the list of button
(resp. control) calls in call order, and a further button call lands at
index equal to the previous button count. -/
theorem builder_calls_chain_and_append :
    (∀ (f : ActionFormData) (t : RawText) (icon : Option String),
       (f.button t icon).buttons = f.buttons ++ [{ text := t, iconPath := icon }]
       ∧ (f.title t).buttons = f.buttons
       ∧ (f.body t).buttons = f.buttons)
    ∧ (∀ (f : MessageFormData) (t : RawText),
       (f.button1 t).button1Text = some t ∧ (f.button2 t).button2Text = some t)
    ∧ (∀ (f : ModalFormData) (l : RawText) (o : List RawText) (d : Option Nat),
       (f.dropdown l o d).controls = f.controls ++ [.dropdown l o d])
    ∧ (∀ (f : ModalFormData) (l : RawText) (mn mx st : Int) (d : Option Int),
       (f.slider l mn mx st d).controls = f.controls ++ [.slider l mn mx st d])
    ∧ (∀ (f : ModalFormData) (l ph : RawText) (d : Option String),
       (f.textField l ph d).controls = f.controls ++ [.textField l ph d])
    ∧ (∀ (f : ModalFormData) (l : RawText) (d : Option Bool),
       (f.toggle l d).controls = f.controls ++ [.toggle l d])
    ∧ (∀ calls : List ActionCall, (buildAction calls).buttons = actionButtons calls)
    ∧ (∀ calls : List ModalCall, (buildModal calls).controls = modalControls calls)
    ∧ (∀ (calls : List ActionCall) (t : RawText) (icon : Option String),
       (((buildAction calls).button t icon).buttons)[(actionButtons calls).length]?
         = some { text := t, iconPath := icon }) := by
  refine ⟨fun f t icon => ⟨rfl, rfl, rfl⟩, fun f t => ⟨rfl, rfl⟩,
    fun f l o d => rfl, fun f l mn mx st d => rfl, fun f l ph d => rfl,
    fun f l d => rfl, buildAction_buttons, buildModal_controls, ?_⟩
  intro calls t icon
  simp [ActionFormData.button, buildAction_buttons]

/-- C9: Every label, title, body, placeholder and option parameter across
the whole builder surface accepts either a plain string or a structured
localizable-message value, and the builder records the given value
unchanged in both cases. -/
theorem text_params_accept_both_forms :
    ∀ (s : String) (m : RawMessage) (fa : ActionFormData) (fm : MessageFormData)
      (fd : ModalFormData),
      (fa.title (.plain s)).titleText = some (.plain s)
      ∧ (fa.title (.localized m)).titleText = some (.localized m)
      ∧ (fa.body (.plain s)).bodyText = some (.plain s)
      ∧ (fa.body (.localized m)).bodyText = some (.localized m)
      ∧ (fa.button (.plain s) none).buttons
          = fa.buttons ++ [{ text := .plain s, iconPath := none }]
      ∧ (fa.button (.localized m) none).buttons
          = fa.buttons ++ [{ text := .localized m, iconPath := none }]
      ∧ (fm.title (.plain s)).titleText = some (.plain s)
      ∧ (fm.title (.localized m)).titleText = some (.localized m)
      ∧ (fm.body (.plain s)).bodyText = some (.plain s)
      ∧ (fm.body (.localized m)).bodyText = some (.localized m)
      ∧ (fm.button1 (.plain s)).button1Text = some (.plain s)
      ∧ (fm.button1 (.localized m)).button1Text = some (.localized m)
      ∧ (fm.button2 (.plain s)).button2Text = some (.plain s)
      ∧ (fm.button2 (.localized m)).button2Text = some (.localized m)
      ∧ (fd.title (.plain s)).titleText = some (.plain s)
      ∧ (fd.title (.localized m)).titleText = some (.localized m)
      ∧ (fd.dropdown (.plain s) [.plain s, .localized m] none).controls
          = fd.controls ++ [.dropdown (.plain s) [.plain s, .localized m] none]
      ∧ (fd.dropdown (.localized m) [.localized m] none).controls
          = fd.controls ++ [.dropdown (.localized m) [.localized m] none]
      ∧ (fd.slider (.plain s) 0 1 1 none).controls
          = fd.controls ++ [.slider (.plain s) 0 1 1 none]
      ∧ (fd.slider (.localized m) 0 1 1 none).controls
          = fd.controls ++ [.slider (.localized m) 0 1 1 none]
      ∧ (fd.textField (.plain s) (.localized m) none).controls
          = fd.controls ++ [.textField (.plain s) (.localized m) none]
      ∧ (fd.textField (.localized m) (.plain s) none).controls
          = fd.controls ++ [.textField (.localized m) (.plain s) none]
      ∧ (fd.toggle (.plain s) none).controls
          = fd.controls ++ [.toggle (.plain s) none]
      ∧ (fd.toggle (.localized m) none).controls
          = fd.controls ++ [.toggle (.localized m) none] := by
  intro s m fa fm fd
  exact ⟨rfl, rfl, rfl, rfl, rfl, rfl, rfl, rfl, rfl, rfl, rfl, rfl, rfl, rfl,
    rfl, rfl, rfl, rfl, rfl, rfl, rfl, rfl, rfl, rfl⟩

/-- Visibility of a class constructor as declared in src/index.d.ts. -/
inductive CtorVisibility where
  | publicCtor
  | protectedCtor
deriving DecidableEq, Repr

/-- `FormResponse` declares `protected constructor()`, src/index.d.ts line
105. -/
def FormResponse.declaredCtor : CtorVisibility := .protectedCtor

/-- `ActionFormResponse` declares `protected constructor()`, src/index.d.ts
line 95. -/
def ActionFormResponse.declaredCtor : CtorVisibility := .protectedCtor

/-- `MessageFormResponse` declares `protected constructor()`, src/index.d.ts
line 152. -/
def MessageFormResponse.declaredCtor : CtorVisibility := .protectedCtor

/-- `ModalFormResponse` declares `protected constructor()`, src/index.d.ts
line 209. -/
def ModalFormResponse.declaredCtor : CtorVisibility := .protectedCtor

/-- `ActionFormData` declares a public `constructor()`, src/index.d.ts line
70 (listed for contrast with the response classes). -/
def ActionFormData.declaredCtor : CtorVisibility := .publicCtor

/-- `MessageFormData` declares a public `constructor()`, src/index.d.ts line
123. -/
def MessageFormData.declaredCtor : CtorVisibility := .publicCtor

/-- `ModalFormData` declares a public `constructor()`, src/index.d.ts line
165. -/
def ModalFormData.declaredCtor : CtorVisibility := .publicCtor

/-- C10: All four response constructors (FormResponse, ActionFormResponse,
MessageFormResponse, ModalFormResponse) are declared protected, so client
code cannot construct a response and every caller-observable response value
originates from the resolution of some show call; the builder constructors,
by contrast, are public. -/
theorem response_ctors_protected :
    FormResponse.declaredCtor = .protectedCtor
    ∧ ActionFormResponse.declaredCtor = .protectedCtor
    ∧ MessageFormResponse.declaredCtor = .protectedCtor
    ∧ ModalFormResponse.declaredCtor = .protectedCtor
    ∧ ActionFormData.declaredCtor = .publicCtor
    ∧ MessageFormData.declaredCtor = .publicCtor
    ∧ ModalFormData.declaredCtor = .publicCtor := by
  decide
